import Mathlib

/-!
Shallow embedding of `agents/skill-templates/creating-api-endpoints/fastapi-endpoint-template.py`
and `agents/skill-templates/1-testing-quality/creating-unit-tests/pytest-fixtures.py`.

External collaborators (`db`, `validate_jwt_token`, `hash_password`, the e-mail
validator behind the pydantic `EmailStr`, `uuid.uuid4`, `datetime.utcnow`) are
unspecified in the source; they are passed in as an abstract environment.
Handlers return a result together with the list of collaborator calls they
performed, so statements about "the store was not touched" are about that trace.
Machine strings are Lean `String`s (lists of code points); the Python library
string operations are embedded below, restricted to the ASCII range.
-/

namespace ApiTemplate

/-- Embedding of Python `str.startswith(pre)`: `pre` is a prefix of `s`. -/
def pyStartsWith (s pre : String) : Bool :=
  pre.data.isPrefixOf s.data

/-- Worker for `pyReplace` on code-point lists, with fuel for termination.
Replaces every occurrence of `pat` (left to right, non-overlapping) by `repl`. -/
def pyReplaceL (pat repl : List Char) : Nat → List Char → List Char
  | _, [] => []
  | 0, s => s
  | fuel + 1, c :: cs =>
    if pat ≠ [] ∧ pat.isPrefixOf (c :: cs) then
      repl ++ pyReplaceL pat repl fuel ((c :: cs).drop pat.length)
    else
      c :: pyReplaceL pat repl fuel cs

/-- Embedding of Python `s.replace(pat, repl)` for a non-empty pattern:
every occurrence of `pat` in `s` is replaced by `repl`. -/
def pyReplace (s pat repl : String) : String :=
  ⟨pyReplaceL pat.data repl.data s.data.length s.data⟩

/-- Embedding of Python `str.lower` restricted to the ASCII range
(`Char.toLower` maps the code points 65–90 to 97–122 and fixes the rest).
The real `str.lower` applies the Unicode special-casing tables — for example
U+0130 lowers to the two-character `"i" ++ U+0307` — so this model agrees
with the program on ASCII input only, and no theorem below relies on a
property of it (such as length preservation or preservation of
alphanumericity) that the Unicode mapping lacks. -/
def pyLower (s : String) : String :=
  ⟨s.data.map Char.toLower⟩

/-- Embedding of Python `str.isalnum` on one character, restricted to the
ASCII range: an upper-case letter, a lower-case letter, or a digit. The real
per-character test also accepts non-ASCII Unicode alphanumerics; theorems
below use this model only where both sides of the statement use it, never to
discharge a side condition the Unicode test would fail. -/
def pyIsAlnumChar (c : Char) : Bool :=
  decide ((65 ≤ c.toNat ∧ c.toNat ≤ 90) ∨ (97 ≤ c.toNat ∧ c.toNat ≤ 122) ∨
    (48 ≤ c.toNat ∧ c.toNat ≤ 57))

/-- Embedding of Python `str.isalnum`: non-empty and every character
alphanumeric, with the per-character test of `pyIsAlnumChar` and that
definition's ASCII scope. -/
def pyIsAlnum (s : String) : Bool :=
  !s.data.isEmpty && s.data.all pyIsAlnumChar

/-- Model of `fastapi.HTTPException`: a status code, a detail message, and whether the
`headers` argument carried `WWW-Authenticate: Bearer`. -/
structure HTTPException where
  status_code : Nat
  detail : String
  www_authenticate_bearer : Bool
deriving DecidableEq, Repr

/-- The `current_user` dict produced by `validate_jwt_token`: the fields the
handlers read (`current_user["id"]`, `current_user.get("is_admin")`). -/
structure AuthUser where
  id : String
  is_admin : Bool
deriving DecidableEq, Repr

/-- A user record of the external store `db` (timestamps as abstract ticks). -/
structure StoredUser where
  id : String
  username : String
  email : String
  password_hash : String
  full_name : Option String
  created_at : Nat
  updated_at : Nat
deriving DecidableEq, Repr

/-- Raw input to the `UserCreate` pydantic schema, before validation. -/
structure UserCreateInput where
  username : String
  email : String
  password : String
  full_name : Option String
deriving DecidableEq, Repr

/-- A validated `UserCreate` value (the `username` validator has run). -/
structure UserCreate where
  username : String
  email : String
  password : String
  full_name : Option String
deriving DecidableEq, Repr

/-- The `Field(None, max_length=100)` bound on `full_name`: the field is
optional and, when present, at most 100 characters. -/
def full_name_ok : Option String → Bool
  | none => true
  | some fn => decide (fn.length ≤ 100)

/-- Validation of the `UserCreate` schema: `Field` bounds
(`username` 3–50 chars, `password` min 8, `full_name` max 100), `EmailStr`
(abstract validator `is_valid_email`), and the `username_alphanumeric`
validator, which rejects non-alphanumeric usernames and stores `v.lower()`. -/
def UserCreate.validate (is_valid_email : String → Bool) (i : UserCreateInput) :
    Option UserCreate :=
  if 3 ≤ i.username.length ∧ i.username.length ≤ 50 ∧
      is_valid_email i.email = true ∧
      8 ≤ i.password.length ∧
      full_name_ok i.full_name = true ∧
      pyIsAlnum i.username = true then
    some ⟨pyLower i.username, i.email, i.password, i.full_name⟩
  else
    none

/-- The `UserUpdate` pydantic schema: all fields optional
(`none` = not provided, i.e. excluded by `exclude_unset=True`). -/
structure UserUpdate where
  email : Option String
  full_name : Option String
  password : Option String
deriving DecidableEq, Repr

/-- The `update_data` dict passed to `db.update_user` after the handler has
hashed the password (if provided) and set `updated_at`. -/
structure UpdateData where
  email : Option String
  full_name : Option String
  password_hash : Option String
  updated_at : Nat
deriving DecidableEq, Repr

/-- One call to a store or hashing collaborator performed by a handler. -/
inductive Effect where
  | find_user_by_username_or_email (username email : String)
  | hash_password (password : String)
  | db_create_user (record : StoredUser)
  | db_get_user (user_id : String)
  | db_update_user (user_id : String) (data : UpdateData)
  | db_delete_user (user_id : String)
  | db_list_users (offset : Int) (limit : Int) (search : Option String)
deriving DecidableEq, Repr

/-- The abstract behaviour of the external collaborators: JWT validation,
the store `db`, password hashing, `uuid.uuid4`, and `datetime.utcnow`
(a value per call index, since each call may observe a later time). -/
structure Env where
  validate_jwt_token : String → Option AuthUser
  find_user_by_username_or_email : String → String → Option StoredUser
  hash_password : String → String
  db_create_user : StoredUser → StoredUser
  db_get_user : String → Option StoredUser
  db_update_user : String → UpdateData → StoredUser
  db_list_users : Int → Int → Option String → List StoredUser × Int
  uuid4 : String
  utcnow : Nat → Nat

/-- Dependency `get_current_user`: 401 when the `Authorization` header is absent, empty,
or does not start with `"Bearer "`; otherwise strips `"Bearer "` (Python
`str.replace`, all occurrences) and asks `validate_jwt_token`, turning a
rejection into 401; both 401s carry `WWW-Authenticate: Bearer`. -/
def get_current_user (validate_jwt_token : String → Option AuthUser)
    (authorization : Option String) : Except HTTPException AuthUser :=
  match authorization with
  | none => .error ⟨401, "Invalid or missing token", true⟩
  | some a =>
    if (a == "") || !(pyStartsWith a "Bearer ") then
      .error ⟨401, "Invalid or missing token", true⟩
    else
      match validate_jwt_token (pyReplace a "Bearer " "") with
      | some user => .ok user
      | none => .error ⟨401, "Invalid token", true⟩

/-- Dependency `require_admin`: authenticates via `get_current_user`, then 403 unless
`current_user.get("is_admin")` is truthy. -/
def require_admin (validate_jwt_token : String → Option AuthUser)
    (authorization : Option String) : Except HTTPException AuthUser :=
  match get_current_user validate_jwt_token authorization with
  | .error e => .error e
  | .ok current_user =>
    if !current_user.is_admin then
      .error ⟨403, "Admin access required", false⟩
    else
      .ok current_user

/-- Success status declared on the `POST /api/users` route decorator. -/
def create_user_success_status : Nat := 201

/-- Success status declared on the `DELETE /api/users/{user_id}` decorator. -/
def delete_user_success_status : Nat := 204

/-- Handler of `POST /api/users`: after authentication, 409 when
`db.find_user_by_username_or_email` reports an existing user; otherwise hash
the password, build the record (fresh uuid, `created_at` from the first
`utcnow()` call, `updated_at` from the second) and hand it to
`db.create_user`, returning its result. -/
def create_user (env : Env) (user_data : UserCreate)
    (authorization : Option String) :
    Except HTTPException StoredUser × List Effect :=
  match get_current_user env.validate_jwt_token authorization with
  | .error e => (.error e, [])
  | .ok _current_user =>
    let existing_user :=
      env.find_user_by_username_or_email user_data.username user_data.email
    let t0 : List Effect :=
      [.find_user_by_username_or_email user_data.username user_data.email]
    match existing_user with
    | some _ => (.error ⟨409, "Username or email already exists", false⟩, t0)
    | none =>
      let password_hash := env.hash_password user_data.password
      let new_record : StoredUser :=
        { id := env.uuid4
          username := user_data.username
          email := user_data.email
          password_hash := password_hash
          full_name := user_data.full_name
          created_at := env.utcnow 0
          updated_at := env.utcnow 1 }
      let new_user := env.db_create_user new_record
      (.ok new_user,
        t0 ++ [.hash_password user_data.password, .db_create_user new_record])

/-- The pagination dict built by `list_users`. -/
structure Pagination where
  page : Int
  per_page : Int
  total : Int
  total_pages : Int
deriving DecidableEq, Repr

/-- The response of `GET /api/users`. -/
structure UserListResponse where
  data : List StoredUser
  pagination : Pagination
deriving DecidableEq, Repr

/-- Handler of `GET /api/users`: after authentication, clamp `limit` to 100, compute
`offset = (page - 1) * limit`, query `db.list_users`, and return the page
with pagination metadata; `//` is Python floor division (`Int.fdiv`). -/
def list_users (env : Env) (page limit : Int) (search : Option String)
    (authorization : Option String) :
    Except HTTPException UserListResponse × List Effect :=
  match get_current_user env.validate_jwt_token authorization with
  | .error e => (.error e, [])
  | .ok _current_user =>
    let limit := if limit > 100 then 100 else limit
    let offset := (page - 1) * limit
    let (users, total) := env.db_list_users offset limit search
    (.ok { data := users
           pagination :=
            { page := page
              per_page := limit
              total := total
              total_pages := (total + limit - 1).fdiv limit } },
      [.db_list_users offset limit search])

/-- Handler of `GET /api/users/{user_id}`: after authentication, 404 when `db.get_user`
finds nothing, otherwise the user. -/
def get_user (env : Env) (user_id : String) (authorization : Option String) :
    Except HTTPException StoredUser × List Effect :=
  match get_current_user env.validate_jwt_token authorization with
  | .error e => (.error e, [])
  | .ok _current_user =>
    match env.db_get_user user_id with
    | none =>
      (.error ⟨404, "User with ID " ++ user_id ++ " not found", false⟩,
        [.db_get_user user_id])
    | some user => (.ok user, [.db_get_user user_id])

/-- Handler of `PATCH /api/users/{user_id}`: after authentication, 403 unless the target
is the requester or the requester is admin; then 404 when `db.get_user` finds
nothing; otherwise hash the password when provided, stamp `updated_at`, and
call `db.update_user`. -/
def update_user (env : Env) (user_id : String) (user_data : UserUpdate)
    (authorization : Option String) :
    Except HTTPException StoredUser × List Effect :=
  match get_current_user env.validate_jwt_token authorization with
  | .error e => (.error e, [])
  | .ok current_user =>
    if (user_id != current_user.id) && !current_user.is_admin then
      (.error ⟨403, "Can only update own profile", false⟩, [])
    else
      match env.db_get_user user_id with
      | none =>
        (.error ⟨404, "User with ID " ++ user_id ++ " not found", false⟩,
          [.db_get_user user_id])
      | some _existing_user =>
        let update_data : UpdateData :=
          { email := user_data.email
            full_name := user_data.full_name
            password_hash := user_data.password.map env.hash_password
            updated_at := env.utcnow 0 }
        let updated_user := env.db_update_user user_id update_data
        (.ok updated_user,
          [.db_get_user user_id] ++
            (match user_data.password with
              | some p => [.hash_password p]
              | none => []) ++
            [.db_update_user user_id update_data])

/-- Handler of `DELETE /api/users/{user_id}`: gated by `require_admin`; then 404 when
`db.get_user` finds nothing; otherwise `db.delete_user` and 204 (no body). -/
def delete_user (env : Env) (user_id : String)
    (authorization : Option String) : Except HTTPException Unit × List Effect :=
  match require_admin env.validate_jwt_token authorization with
  | .error e => (.error e, [])
  | .ok _admin =>
    match env.db_get_user user_id with
    | none =>
      (.error ⟨404, "User with ID " ++ user_id ++ " not found", false⟩,
        [.db_get_user user_id])
    | some _existing_user =>
      (.ok (), [.db_get_user user_id, .db_delete_user user_id])

/-- The names bound at module scope in
`fastapi-endpoint-template.py`: the imported names (`from fastapi import
FastAPI, HTTPException, Depends, status, Header`, `from pydantic import
BaseModel, EmailStr, Field, validator`, `from typing import Optional, List`,
`import uuid`, `from datetime import datetime`) and the module-level
definitions. -/
def module_scope_names : List String :=
  ["FastAPI", "HTTPException", "Depends", "status", "Header",
   "BaseModel", "EmailStr", "Field", "validator",
   "Optional", "List", "uuid", "datetime",
   "app", "UserCreate", "UserUpdate", "UserResponse", "UserListResponse",
   "ErrorResponse", "get_current_user", "require_admin", "create_user",
   "list_users", "get_user", "update_user", "delete_user",
   "generic_exception_handler", "health_check"]

/-- Outcome of running the catch-all exception handler body: either the JSON
response it builds, or a `NameError` because a name it references is not in
scope. -/
inductive HandlerOutcome where
  | response (status_code : Nat) (error code : String)
  | nameError (missing : String)
deriving DecidableEq, Repr

/-- Body of `generic_exception_handler`: it evaluates the name `JSONResponse`;
when that name is bound at module scope it returns the 500 response
`{"error": "Internal server error", "code": "INTERNAL_ERROR"}`, otherwise
Python raises `NameError`. -/
def generic_exception_handler : HandlerOutcome :=
  if "JSONResponse" ∈ module_scope_names then
    .response 500 "Internal server error" "INTERNAL_ERROR"
  else
    .nameError "JSONResponse"

/-!  Embedding of the `database_connection` fixture of `pytest-fixtures.py`.
`Database.connect`, `create_tables`, `drop_tables` and `close` come from the
external `your_module`; they are abstract operations on an abstract state. -/

/-- The operations of the external `Database` collaborator, on an abstract
state type `σ` (the mutated database object, passed explicitly). -/
structure DbOps (σ : Type) where
  connect : String → σ
  create_tables : σ → σ
  drop_tables : σ → σ
  close : σ → σ

/-- The outcome of running a fixture around a test body: the resource at the
`yield` point and the state after the teardown. -/
structure FixtureRun (σ : Type) where
  yielded : σ
  final : σ
deriving DecidableEq, Repr

/-- The `database_connection` fixture generator: `Database.connect("test_db")`
then `db.create_tables()`, `yield db`, then after the test body
`db.drop_tables()` and `db.close()`. -/
def database_connection (σ : Type) (ops : DbOps σ) (testBody : σ → σ) :
    FixtureRun σ :=
  let db := ops.connect "test_db"
  let db := ops.create_tables db
  let afterTest := testBody db
  let afterDrop := ops.drop_tables afterTest
  let afterClose := ops.close afterDrop
  ⟨db, afterClose⟩

/-- One call to the external `Database` collaborator, for trace semantics. -/
inductive DbEvent where
  | connect (name : String)
  | create_tables
  | drop_tables
  | close
deriving DecidableEq, Repr

/-- Trace semantics for the `Database` operations: the state is the list of
calls made so far, each operation appends its own call. -/
def traceDbOps : DbOps (List DbEvent) where
  connect name := [.connect name]
  create_tables s := s ++ [.create_tables]
  drop_tables s := s ++ [.drop_tables]
  close s := s ++ [.close]

/-!  Concrete sample collaborators, used to evaluate the embedding on
closed inputs. -/

deriving instance DecidableEq for Except

/-- A sample non-admin authenticated user. -/
def userEx : AuthUser := ⟨"u1", false⟩

/-- A sample admin authenticated user. -/
def adminEx : AuthUser := ⟨"u9", true⟩

/-- A sample JWT validator: accepts exactly the tokens `"tok"` (a non-admin)
and `"adm"` (an admin). -/
def validateEx : String → Option AuthUser := fun t =>
  if t == "tok" then some userEx
  else if t == "adm" then some adminEx
  else none

/-- A sample stored user record. -/
def storedEx : StoredUser := ⟨"u1", "bob", "b@x.com", "ph", none, 0, 0⟩

/-- A sample environment: the store knows only the user with id `"u1"`,
`find_user_by_username_or_email` finds nothing, the clock advances one tick
per call. -/
def envA : Env where
  validate_jwt_token := validateEx
  find_user_by_username_or_email := fun _ _ => none
  hash_password := fun p => p ++ "#h"
  db_create_user := fun r => r
  db_get_user := fun i => if i == "u1" then some storedEx else none
  db_update_user := fun _ _ => storedEx
  db_list_users := fun _ _ _ => ([], 5)
  uuid4 := "uuid-1"
  utcnow := fun n => n

/-- Like `envA`, but `find_user_by_username_or_email` reports an existing
user, so user creation conflicts. -/
def envB : Env where
  validate_jwt_token := validateEx
  find_user_by_username_or_email := fun _ _ => some storedEx
  hash_password := fun p => p ++ "#h"
  db_create_user := fun r => r
  db_get_user := fun i => if i == "u1" then some storedEx else none
  db_update_user := fun _ _ => storedEx
  db_list_users := fun _ _ _ => ([], 5)
  uuid4 := "uuid-1"
  utcnow := fun n => n

/-- A sample valid `UserCreate` payload. -/
def ucdEx : UserCreate := ⟨"bob1", "b@x.com", "password1", none⟩

/-- The record `create_user` hands to `db.create_user` under `envA` with
payload `ucdEx`: the clock of `envA` advances between the two `utcnow()`
calls, so `created_at = 0` and `updated_at = 1`. -/
def createdRecEx : StoredUser :=
  ⟨"uuid-1", "bob1", "b@x.com", "password1#h", none, 0, 1⟩

/-!  Helper lemmas. -/

theorem char_toLower_eq (c : Char) :
    Char.toLower c =
      if c.toNat ≥ 65 ∧ c.toNat ≤ 90 then Char.ofNat (c.toNat + 32) else c := rfl

theorem char_ofNat_toNat_upper (m : Nat) (h1 : 65 ≤ m) (h2 : m ≤ 90) :
    (Char.ofNat (m + 32)).toNat = m + 32 := by
  interval_cases m <;> decide

theorem char_toLower_idem (c : Char) :
    Char.toLower (Char.toLower c) = Char.toLower c := by
  by_cases h : c.toNat ≥ 65 ∧ c.toNat ≤ 90
  · obtain ⟨h1, h2⟩ := h
    have ht := char_ofNat_toNat_upper c.toNat h1 h2
    rw [char_toLower_eq c, if_pos ⟨h1, h2⟩, char_toLower_eq, ht, if_neg (by omega)]
  · rw [char_toLower_eq c, if_neg h, char_toLower_eq c, if_neg h]

theorem list_map_toLower_idem (l : List Char) :
    (l.map Char.toLower).map Char.toLower = l.map Char.toLower := by
  induction l with
  | nil => rfl
  | cons c cs ih => simp only [List.map_cons, char_toLower_idem, ih]

theorem pyLower_idem (s : String) : pyLower (pyLower s) = pyLower s :=
  congrArg String.mk (list_map_toLower_idem s.data)

theorem fdiv_ceil_eq (a b : Int) (hb : 1 ≤ b) :
    (a + b - 1).fdiv b = ⌈(a : ℚ) / (b : ℚ)⌉ := by
  rw [Int.fdiv_eq_ediv _ (by omega)]
  have hqr := Int.ediv_add_emod (a + b - 1) b
  have hr0 : 0 ≤ (a + b - 1) % b := Int.emod_nonneg _ (by omega)
  have hrb : (a + b - 1) % b < b := Int.emod_lt_of_pos _ (by omega)
  obtain ⟨m, hm⟩ : ∃ m, b * ((a + b - 1) / b) = m := ⟨_, rfl⟩
  rw [hm] at hqr
  have hle : a ≤ m := by omega
  have hlt : m - b < a := by omega
  have hbq : (0 : ℚ) < (b : ℚ) := by exact_mod_cast (by omega : (0 : ℤ) < b)
  symm
  rw [Int.ceil_eq_iff]
  constructor
  · rw [lt_div_iff₀ hbq]
    have : ((a + b - 1) / b - 1) * b = m - b := by
      rw [sub_mul, one_mul, mul_comm _ b, hm]
    calc ((((a + b - 1) / b : ℤ) : ℚ) - 1) * (b : ℚ)
        = (((a + b - 1) / b - 1 : ℤ) : ℚ) * (b : ℚ) := by push_cast; ring
      _ = ((((a + b - 1) / b - 1) * b : ℤ) : ℚ) := by push_cast; ring
      _ < (a : ℚ) := by rw [this]; exact_mod_cast hlt
  · rw [div_le_iff₀ hbq]
    have : ((a + b - 1) / b) * b = m := by rw [mul_comm, hm]
    calc (a : ℚ) ≤ ((m : ℤ) : ℚ) := by exact_mod_cast hle
      _ = ((((a + b - 1) / b) * b : ℤ) : ℚ) := by rw [this]
      _ = (((a + b - 1) / b : ℤ) : ℚ) * (b : ℚ) := by push_cast; ring

/-!  Claims. -/

/-- C1: for any request whose `Authorization` header is missing, does not
start with `"Bearer "`, or carries a token `validate_jwt_token` rejects,
`get_current_user` yields HTTP 401 with `WWW-Authenticate: Bearer`; with a
valid token it returns the authenticated user; and whenever it yields an
error, every `/api/users` handler returns that error with an empty effect
trace, i.e. before its body performs any collaborator call. -/
theorem C1_get_current_user_gate (validate : String → Option AuthUser)
    (auth : Option String) :
    (auth = none →
      get_current_user validate auth =
        .error ⟨401, "Invalid or missing token", true⟩)
    ∧ (∀ a, auth = some a → pyStartsWith a "Bearer " = false →
      get_current_user validate auth =
        .error ⟨401, "Invalid or missing token", true⟩)
    ∧ (∀ a, auth = some a → pyStartsWith a "Bearer " = true →
      validate (pyReplace a "Bearer " "") = none →
      get_current_user validate auth = .error ⟨401, "Invalid token", true⟩)
    ∧ (∀ a u, auth = some a → pyStartsWith a "Bearer " = true →
      validate (pyReplace a "Bearer " "") = some u →
      get_current_user validate auth = .ok u)
    ∧ (∀ env : Env, env.validate_jwt_token = validate →
      ∀ e, get_current_user validate auth = .error e →
        (∀ ucd, create_user env ucd auth = (.error e, []))
        ∧ (∀ page limit search,
            list_users env page limit search auth = (.error e, []))
        ∧ (∀ uid, get_user env uid auth = (.error e, []))
        ∧ (∀ uid ud, update_user env uid ud auth = (.error e, []))
        ∧ (∀ uid, delete_user env uid auth = (.error e, []))) := by
  refine ⟨?_, ?_, ?_, ?_, ?_⟩
  · intro h; subst h; rfl
  · intro a ha h; subst ha; simp [get_current_user, h]
  · intro a ha h hv
    subst ha
    have hne : (a == "") = false := by
      cases he : a == "" with
      | true =>
        have he' := eq_of_beq he
        subst he'
        exact absurd h (by decide)
      | false => rfl
    simp [get_current_user, hne, h, hv]
  · intro a u ha h hv
    subst ha
    have hne : (a == "") = false := by
      cases he : a == "" with
      | true =>
        have he' := eq_of_beq he
        subst he'
        exact absurd h (by decide)
      | false => rfl
    simp [get_current_user, hne, h, hv]
  · intro env henv e he
    refine ⟨?_, ?_, ?_, ?_, ?_⟩
    · intro ucd; simp [create_user, henv, he]
    · intro page limit search; simp [list_users, henv, he]
    · intro uid; simp [get_user, henv, he]
    · intro uid ud; simp [update_user, henv, he]
    · intro uid; simp [delete_user, require_admin, henv, he]

/-- Witness for C1: the sample validator accepts `"Bearer tok"` and
`get_current_user` returns the non-admin user. -/
theorem C1_witness :
    get_current_user validateEx (some "Bearer tok") = .ok userEx :=
  (C1_get_current_user_gate validateEx (some "Bearer tok")).2.2.2.1
    "Bearer tok" userEx rfl (by decide) (by decide)

/-- C5: `UserCreate` accepts an input iff the username is alphanumeric and
3–50 characters, the e-mail passes the e-mail validator, the password has at
least 8 characters, and `full_name` is absent or at most 100 characters. -/
theorem C5_UserCreate_acceptance (f : String → Bool) (i : UserCreateInput) :
    (∃ u, UserCreate.validate f i = some u) ↔
      (pyIsAlnum i.username = true ∧ 3 ≤ i.username.length ∧
        i.username.length ≤ 50 ∧ f i.email = true ∧ 8 ≤ i.password.length ∧
        full_name_ok i.full_name = true) := by
  unfold UserCreate.validate
  split
  next h => simp only [Option.some.injEq, exists_eq']; tauto
  next h =>
    constructor
    · rintro ⟨u, hu⟩; cases hu
    · intro hc; exact absurd (by tauto) h

/-- Witness for C5: a concrete input satisfying all the rules is accepted. -/
theorem C5_witness :
    ∃ u, UserCreate.validate (fun _ => true)
      ⟨"AbC123", "a@b.c", "password1", none⟩ = some u :=
  (C5_UserCreate_acceptance (fun _ => true)
    ⟨"AbC123", "a@b.c", "password1", none⟩).mpr (by decide)

/-- C6: the catch-all handler body references `JSONResponse`, a name that is
not bound at module scope in the template, so running it raises `NameError`
instead of producing the 500 JSON body. -/
theorem C6_generic_exception_handler_name_error :
    generic_exception_handler = .nameError "JSONResponse" := by decide

/-- C9: the `database_connection` fixture performs `Database.connect` then
`create_tables` before yielding, the test body in between, and `drop_tables`
then `close` afterwards; the yielded resource is the connected database with
the tables already created. -/
theorem C9_database_connection_order (bodyEvents : List DbEvent) :
    (database_connection (List DbEvent) traceDbOps
        (fun s => s ++ bodyEvents)).yielded =
      [.connect "test_db", .create_tables]
    ∧ (database_connection (List DbEvent) traceDbOps
        (fun s => s ++ bodyEvents)).final =
      [DbEvent.connect "test_db", DbEvent.create_tables] ++ bodyEvents ++
        [DbEvent.drop_tables, DbEvent.close] := by
  constructor <;> simp [database_connection, traceDbOps]

/-- C10: every accepted username is stored as the lowercase form of the
submitted one; the stored username is its own lowercase form (lowering is
idempotent; this also holds for the Unicode mapping of the program, whose
lowercase outputs are fixed by a further lowering); and on an
already-lowercase alphanumeric username — one the validator accepts with
`pyLower i.username = i.username` — validation is idempotent: re-validating
the accepted record returns the same record, by congruence alone, with no
appeal to any property of the lowercasing or alphanumericity functions. -/
theorem C10_username_lowercase (f : String → Bool) (i : UserCreateInput)
    (u : UserCreate) (h : UserCreate.validate f i = some u) :
    u.username = pyLower i.username
    ∧ pyLower u.username = u.username
    ∧ (pyLower i.username = i.username →
      UserCreate.validate f ⟨u.username, u.email, u.password, u.full_name⟩ =
        some u) := by
  unfold UserCreate.validate at h
  split at h
  case isTrue hc =>
    cases h
    refine ⟨rfl, pyLower_idem i.username, ?_⟩
    intro hlow
    show UserCreate.validate f
      ⟨pyLower i.username, i.email, i.password, i.full_name⟩ = _
    rw [hlow]
    unfold UserCreate.validate
    rw [if_pos hc, hlow]
  case isFalse => cases h

/-- Witness for C10: the already-lowercase username `"abc123"` is accepted,
stored unchanged, and the accepted record re-validates to itself. -/
theorem C10_witness :
    UserCreate.validate (fun _ => true)
      ⟨"abc123", "a@b.c", "password1", none⟩ =
      some ⟨"abc123", "a@b.c", "password1", none⟩ :=
  (C10_username_lowercase (fun _ => true)
    ⟨"abc123", "a@b.c", "password1", none⟩
    ⟨"abc123", "a@b.c", "password1", none⟩ (by decide)).2.2 (by decide)

/-- C2: HTTP 403 exactly on missing privilege: an authenticated non-admin
gets 403 from DELETE with nothing performed; an admin never gets 403 from
DELETE; PATCH yields 403 exactly when the target is not the requester and the
requester is not admin; and no other authenticated request yields 403. -/
theorem C2_forbidden_exactly (env : Env) (auth : Option String) (u : AuthUser)
    (hauth : get_current_user env.validate_jwt_token auth = .ok u) :
    (u.is_admin = false → ∀ user_id,
      delete_user env user_id auth =
        (.error ⟨403, "Admin access required", false⟩, []))
    ∧ (u.is_admin = true → ∀ user_id e,
      (delete_user env user_id auth).1 = .error e → e.status_code ≠ 403)
    ∧ (∀ user_id ud,
      (∃ e, (update_user env user_id ud auth).1 = .error e ∧ e.status_code = 403)
        ↔ (user_id ≠ u.id ∧ u.is_admin = false))
    ∧ (∀ ucd e, (create_user env ucd auth).1 = .error e → e.status_code ≠ 403)
    ∧ (∀ page limit search e,
      (list_users env page limit search auth).1 = .error e →
        e.status_code ≠ 403)
    ∧ (∀ user_id e,
      (get_user env user_id auth).1 = .error e → e.status_code ≠ 403) := by
  refine ⟨?_, ?_, ?_, ?_, ?_, ?_⟩
  · intro hadm user_id
    simp [delete_user, require_admin, hauth, hadm]
  · intro hadm user_id e he
    cases hdb : env.db_get_user user_id with
    | none =>
      simp [delete_user, require_admin, hauth, hadm, hdb] at he
      simp [← he]
    | some su =>
      simp [delete_user, require_admin, hauth, hadm, hdb] at he
  · intro user_id ud
    by_cases hcond : user_id ≠ u.id ∧ u.is_admin = false
    · have hb : ((user_id != u.id) && !u.is_admin) = true := by
        simp [bne_iff_ne, hcond.1, hcond.2]
      simp [update_user, hauth, hb, hcond.1, hcond.2]
    · have hb : ((user_id != u.id) && !u.is_admin) = false := by
        rcases not_and_or.mp hcond with h | h
        · simp [bne_iff_ne, not_not.mp h]
        · have hadm : u.is_admin = true := by
            revert h; cases u.is_admin <;> simp
          simp [hadm]
      cases hdb : env.db_get_user user_id with
      | none => simp [update_user, hauth, hb, hdb, hcond]
      | some su => simp [update_user, hauth, hb, hdb, hcond]
  · intro ucd e he
    cases hf : env.find_user_by_username_or_email ucd.username ucd.email with
    | none => simp [create_user, hauth, hf] at he
    | some su =>
      simp [create_user, hauth, hf] at he
      simp [← he]
  · intro page limit search e he
    cases hdb : env.db_list_users
        ((page - 1) * if limit > 100 then 100 else limit)
        (if limit > 100 then 100 else limit) search with
    | mk users total => simp [list_users, hauth, hdb] at he
  · intro user_id e he
    cases hdb : env.db_get_user user_id with
    | none =>
      simp [get_user, hauth, hdb] at he
      simp [← he]
    | some su => simp [get_user, hauth, hdb] at he

/-- Witness for C2: under the sample environment, the authenticated non-admin
gets 403 from DELETE and nothing is performed. -/
theorem C2_witness :
    delete_user envA "u1" (some "Bearer tok") =
      (.error ⟨403, "Admin access required", false⟩, []) :=
  (C2_forbidden_exactly envA (some "Bearer tok") userEx rfl).1 rfl "u1"

/-- C3: for authenticated (and authorized) GET/PATCH/DELETE on
`/api/users/{user_id}`, the response is 404 exactly when `db.get_user` finds
nothing, and in that case the only store call is the lookup: no update and no
delete is performed. -/
theorem C3_not_found_exactly (env : Env) (auth : Option String) (u : AuthUser)
    (hauth : get_current_user env.validate_jwt_token auth = .ok u)
    (user_id : String) :
    ((∃ e, (get_user env user_id auth).1 = .error e ∧ e.status_code = 404)
      ↔ env.db_get_user user_id = none)
    ∧ (env.db_get_user user_id = none →
      get_user env user_id auth =
        (.error ⟨404, "User with ID " ++ user_id ++ " not found", false⟩,
          [.db_get_user user_id]))
    ∧ ((user_id = u.id ∨ u.is_admin = true) → ∀ ud,
      ((∃ e, (update_user env user_id ud auth).1 = .error e ∧
          e.status_code = 404) ↔ env.db_get_user user_id = none)
      ∧ (env.db_get_user user_id = none →
        update_user env user_id ud auth =
          (.error ⟨404, "User with ID " ++ user_id ++ " not found", false⟩,
            [.db_get_user user_id])))
    ∧ (u.is_admin = true →
      ((∃ e, (delete_user env user_id auth).1 = .error e ∧
          e.status_code = 404) ↔ env.db_get_user user_id = none)
      ∧ (env.db_get_user user_id = none →
        delete_user env user_id auth =
          (.error ⟨404, "User with ID " ++ user_id ++ " not found", false⟩,
            [.db_get_user user_id]))) := by
  refine ⟨?_, ?_, ?_, ?_⟩
  · cases hdb : env.db_get_user user_id with
    | none => simp [get_user, hauth, hdb]
    | some su => simp [get_user, hauth, hdb]
  · intro hdb
    simp [get_user, hauth, hdb]
  · intro hautz ud
    have hb : ((user_id != u.id) && !u.is_admin) = false := by
      rcases hautz with h | h
      · simp [h]
      · simp [h]
    constructor
    · cases hdb : env.db_get_user user_id with
      | none => simp [update_user, hauth, hb, hdb]
      | some su => simp [update_user, hauth, hb, hdb]
    · intro hdb
      simp [update_user, hauth, hb, hdb]
  · intro hadm
    constructor
    · cases hdb : env.db_get_user user_id with
      | none => simp [delete_user, require_admin, hauth, hadm, hdb]
      | some su => simp [delete_user, require_admin, hauth, hadm, hdb]
    · intro hdb
      simp [delete_user, require_admin, hauth, hadm, hdb]

/-- Witness for C3: under the sample environment, GET for an absent id
returns 404 having only performed the lookup. -/
theorem C3_witness :
    get_user envA "nope" (some "Bearer tok") =
      (.error ⟨404, "User with ID " ++ "nope" ++ " not found", false⟩,
        [.db_get_user "nope"]) :=
  (C3_not_found_exactly envA (some "Bearer tok") userEx rfl "nope").2.1 rfl

/-- C4 (amended): an authenticated POST yields 409 exactly when
`db.find_user_by_username_or_email` reports an existing user; otherwise the
handler hashes the password and hands `db.create_user` a record carrying the
generated uuid and `created_at`/`updated_at` from the first and second
`utcnow()` calls respectively (equal only when the clock does not advance
between them), returning its result; the route declares status 201. -/
theorem C4_create_user_behaviour (env : Env) (ucd : UserCreate)
    (auth : Option String) (u : AuthUser)
    (hauth : get_current_user env.validate_jwt_token auth = .ok u) :
    ((∃ e, (create_user env ucd auth).1 = .error e ∧ e.status_code = 409)
      ↔ (env.find_user_by_username_or_email ucd.username ucd.email).isSome
          = true)
    ∧ (env.find_user_by_username_or_email ucd.username ucd.email = none →
      ∃ r : StoredUser,
        r.id = env.uuid4 ∧ r.username = ucd.username ∧ r.email = ucd.email ∧
        r.password_hash = env.hash_password ucd.password ∧
        r.full_name = ucd.full_name ∧
        r.created_at = env.utcnow 0 ∧ r.updated_at = env.utcnow 1 ∧
        create_user env ucd auth =
          (.ok (env.db_create_user r),
            [.find_user_by_username_or_email ucd.username ucd.email,
             .hash_password ucd.password, .db_create_user r]))
    ∧ create_user_success_status = 201 := by
  refine ⟨?_, ?_, rfl⟩
  · cases hf : env.find_user_by_username_or_email ucd.username ucd.email with
    | none => simp [create_user, hauth, hf]
    | some su => simp [create_user, hauth, hf]
  · intro hf
    refine ⟨{ id := env.uuid4, username := ucd.username, email := ucd.email,
              password_hash := env.hash_password ucd.password,
              full_name := ucd.full_name,
              created_at := env.utcnow 0, updated_at := env.utcnow 1 },
            rfl, rfl, rfl, rfl, rfl, rfl, rfl, ?_⟩
    simp [create_user, hauth, hf]

/-- Counterexample for C4 as stated: under the sample environment, whose
clock advances one tick per `utcnow()` call, the record handed to
`db.create_user` has `created_at = 0` but `updated_at = 1`, so the two
timestamps are not equal. -/
theorem C4_counterexample :
    (create_user envA ucdEx (some "Bearer tok")).2 =
      [.find_user_by_username_or_email "bob1" "b@x.com",
       .hash_password "password1", .db_create_user createdRecEx]
    ∧ ¬ createdRecEx.created_at = createdRecEx.updated_at := by decide

/-- Witness for C4: under the sample environment the non-conflicting request
creates the record with the uuid and the two clock readings. -/
theorem C4_witness :
    ∃ r : StoredUser,
      r.id = envA.uuid4 ∧ r.username = ucdEx.username ∧
      r.email = ucdEx.email ∧
      r.password_hash = envA.hash_password ucdEx.password ∧
      r.full_name = ucdEx.full_name ∧
      r.created_at = envA.utcnow 0 ∧ r.updated_at = envA.utcnow 1 ∧
      create_user envA ucdEx (some "Bearer tok") =
        (.ok (envA.db_create_user r),
          [.find_user_by_username_or_email ucdEx.username ucdEx.email,
           .hash_password ucdEx.password, .db_create_user r]) :=
  (C4_create_user_behaviour envA ucdEx (some "Bearer tok") userEx rfl).2.1 rfl

/-- C7: for an authenticated GET with `page ≥ 1` and `limit ≥ 1`, the store
is queried with per-page count `min limit 100` and offset
`(page - 1) * min limit 100`, and the pagination object reports
`per_page = min limit 100` and
`total_pages = ⌈total / min limit 100⌉` for the total the store returned. -/
theorem C7_pagination (env : Env) (page limit : Int) (search : Option String)
    (auth : Option String) (u : AuthUser)
    (hauth : get_current_user env.validate_jwt_token auth = .ok u)
    (_hp : 1 ≤ page) (hl : 1 ≤ limit) :
    (list_users env page limit search auth).2 =
      [.db_list_users ((page - 1) * min limit 100) (min limit 100) search]
    ∧ ∃ resp, (list_users env page limit search auth).1 = .ok resp
      ∧ resp.pagination.page = page
      ∧ resp.pagination.per_page = min limit 100
      ∧ resp.pagination.total =
          (env.db_list_users ((page - 1) * min limit 100)
            (min limit 100) search).2
      ∧ resp.pagination.total_pages =
          ⌈(resp.pagination.total : ℚ) / ((min limit 100 : Int) : ℚ)⌉ := by
  have hmin : (if limit > 100 then (100 : Int) else limit) = min limit 100 := by
    split <;> omega
  cases hdb : env.db_list_users ((page - 1) * min limit 100)
      (min limit 100) search with
  | mk users total =>
    constructor
    · simp [list_users, hauth, hmin, hdb]
    · refine ⟨⟨users, ⟨page, min limit 100, total,
        (total + min limit 100 - 1).fdiv (min limit 100)⟩⟩, ?_, rfl, rfl, ?_, ?_⟩
      · simp [list_users, hauth, hmin, hdb]
      · simp [hdb]
      · exact fdiv_ceil_eq total (min limit 100) (by omega)

/-- Witness for C7: the sample store query with `page = 2`, `limit = 30`. -/
theorem C7_witness :
    (list_users envA 2 30 none (some "Bearer tok")).2 =
      [.db_list_users ((2 - 1) * min 30 100) (min 30 100) none] :=
  (C7_pagination envA 2 30 none (some "Bearer tok") userEx rfl
    (by decide) (by decide)).1

/-- C8: when the duplicate check reports an existing user, `create_user`
raises 409 having performed only that check: the hashing collaborator is
never called and no record is created. -/
theorem C8_conflict_atomic (env : Env) (ucd : UserCreate)
    (auth : Option String) (u : AuthUser)
    (hauth : get_current_user env.validate_jwt_token auth = .ok u)
    (ex : StoredUser)
    (hex : env.find_user_by_username_or_email ucd.username ucd.email = some ex) :
    create_user env ucd auth =
      (.error ⟨409, "Username or email already exists", false⟩,
        [.find_user_by_username_or_email ucd.username ucd.email])
    ∧ (∀ p, Effect.hash_password p ∉ (create_user env ucd auth).2)
    ∧ (∀ r, Effect.db_create_user r ∉ (create_user env ucd auth).2) := by
  refine ⟨?_, ?_, ?_⟩
  · simp [create_user, hauth, hex]
  · intro p; simp [create_user, hauth, hex]
  · intro r; simp [create_user, hauth, hex]

/-- Witness for C8: under the conflicting sample environment the handler
stops after the duplicate check. -/
theorem C8_witness :
    create_user envB ucdEx (some "Bearer tok") =
      (.error ⟨409, "Username or email already exists", false⟩,
        [.find_user_by_username_or_email ucdEx.username ucdEx.email]) :=
  (C8_conflict_atomic envB ucdEx (some "Bearer tok") userEx rfl
    storedEx rfl).1

end ApiTemplate
